import Mathlib

/-!
Verification of the Locatex real-estate backend.

This file gives a shallow embedding of the data model and the request
handlers of the backend (property catalog, moderation workflow, agent
directory with reviews, user registration and admin user management) and
proves properties of the public API against that embedding.

Conventions of the embedding:
- Mongo documents become Lean structures; a collection is a List of
  documents, identified by Nat ids.
- Each Express handler becomes a pure function from the relevant
  collections and request data to an Except value: a .error carries the
  HTTP status code and message of the JSON error response, a .ok carries
  the data of the success response.  Handlers that persist return the
  updated collections alongside the result; an error response leaves the
  collections unchanged (nothing was saved on those paths).
- Monetary amounts and ratings are rationals; dates are Nat timestamps
  supplied by the caller as a parameter named now.
-/

namespace Locatex

/-! ## List helpers (sorting and pagination used by list endpoints) -/

/-- Insertion of one element into a list sorted by a boolean comparison. -/
def insertSorted (le : α → α → Bool) (x : α) : List α → List α
  | [] => [x]
  | y :: ys => if le x y then x :: y :: ys else y :: insertSorted le x ys

/-- Insertion sort by a boolean comparison; models the sort stage of a
Mongo query. -/
def sortByBool (le : α → α → Bool) : List α → List α
  | [] => []
  | x :: xs => insertSorted le x (sortByBool le xs)

/-- Pagination stage of a Mongo query: skip (page-1)*limit, take limit. -/
def paginate (xs : List α) (page limit : Nat) : List α :=
  (xs.drop ((page - 1) * limit)).take limit

theorem mem_insertSorted (le : α → α → Bool) (x : α) (l : List α) (a : α) :
    a ∈ insertSorted le x l ↔ a = x ∨ a ∈ l := by
  induction l with
  | nil => simp [insertSorted]
  | cons y ys ih =>
    by_cases h : le x y = true
    · simp [insertSorted, h]
    · simp only [insertSorted, h, if_neg, Bool.not_eq_true] at *
      simp [List.mem_cons, ih]
      tauto

theorem mem_sortByBool (le : α → α → Bool) (l : List α) (a : α) :
    a ∈ sortByBool le l ↔ a ∈ l := by
  induction l with
  | nil => simp [sortByBool]
  | cons x xs ih => simp [sortByBool, mem_insertSorted, ih]

theorem mem_paginate (xs : List α) (page limit : Nat) (a : α)
    (h : a ∈ paginate xs page limit) : a ∈ xs := by
  have h1 : a ∈ xs.drop ((page - 1) * limit) := List.take_subset _ _ h
  exact List.drop_subset _ _ h1

/-! ## String helpers (case-insensitive substring match for RegExp filters,
whitespace tokenization for the text index) -/

/-- ASCII case-insensitive character comparison. -/
def charEqCI (a b : Char) : Bool :=
  decide (a = b) ||
  (decide (a.toNat + 32 = b.toNat) && decide (65 ≤ a.toNat) &&
    decide (a.toNat ≤ 90)) ||
  (decide (b.toNat + 32 = a.toNat) && decide (65 ≤ b.toNat) &&
    decide (b.toNat ≤ 90))

/-- Case-insensitive prefix test on character lists. -/
def isPrefixCI : List Char → List Char → Bool
  | [], _ => true
  | _ :: _, [] => false
  | a :: as, b :: bs => charEqCI a b && isPrefixCI as bs

/-- Case-insensitive substring containment, modelling
new RegExp(query, i) applied to a stored field. -/
def strContainsCI (hay needle : String) : Bool :=
  hay.toList.tails.any (fun t => isPrefixCI needle.toList t)

/-- JavaScript String.prototype.trim: strips whitespace from both ends
(written over character lists so that it evaluates by kernel reduction). -/
def jsTrim (s : String) : String :=
  ⟨((s.toList.dropWhile Char.isWhitespace).reverse.dropWhile
      Char.isWhitespace).reverse⟩

/-! ## Data model: Property -/

/-- approvalStatus enum of the Property schema. -/
inductive ApprovalStatus
  | pending
  | approved
  | rejected
deriving DecidableEq, Repr

/-- Structured location sub-document of a property. -/
structure Location where
  address : String := ""
  city : String := ""
  state : String := ""
  district : String := ""
  taluka : String := ""
  village : String := ""
deriving DecidableEq, Repr

/-- A Property document (the fields the handlers under verification read
or write). -/
structure PropertyDoc where
  id : Nat
  title : String := ""
  description : String := ""
  price : ℚ := 0
  type : String := ""
  status : String := ""
  location : Location := {}
  bedrooms : Option Nat := none
  bathrooms : Option Nat := none
  area : Option ℚ := none
  views : Nat := 0
  owner : Nat
  agent : Option Nat := none
  isFeatured : Bool := false
  isActive : Bool := true
  isPublished : Bool := true
  approvalStatus : ApprovalStatus := .pending
  approvedBy : Option Nat := none
  approvedAt : Option Nat := none
  rejectionReason : Option String := none
  createdAt : Nat := 0
deriving DecidableEq, Repr

/-- An error response: HTTP status code and message. -/
structure ErrResp where
  status : Nat
  message : String
deriving DecidableEq, Repr

/-! ## Property catalog: GET /api/properties (getProperties) -/

/-- Base visibility filter of the anonymous listing endpoint:
the Mongo filter starts as an $or of isPublished:true and
approvalStatus:approved. -/
def publiclyVisible (p : PropertyDoc) : Bool :=
  p.isPublished || decide (p.approvalStatus = .approved)

/-- The listing pipeline before user-supplied filters and pagination:
every property passing the base $or visibility filter. -/
def getPropertiesVisible (db : List PropertyDoc) : List PropertyDoc :=
  db.filter publiclyVisible

/-- Query parameters of GET /api/properties. -/
structure ListParams where
  page : Option Nat := none
  limit : Option Nat := none
  minPrice : Option ℚ := none
  maxPrice : Option ℚ := none
  propertyType : Option String := none
  status : Option String := none
  city : Option String := none
  district : Option String := none
  village : Option String := none
  bedrooms : Option Nat := none
  bathrooms : Option Nat := none
  minArea : Option ℚ := none
  maxArea : Option ℚ := none
  sort : Option String := none

/-- The user-supplied filter conditions of getProperties, conjoined onto
the base filter object. -/
def matchesUserFilters (q : ListParams) (p : PropertyDoc) : Bool :=
  (match q.minPrice with | some v => decide (v ≤ p.price) | none => true) &&
  (match q.maxPrice with | some v => decide (p.price ≤ v) | none => true) &&
  (match q.propertyType with | some t => decide (p.type = t) | none => true) &&
  (match q.status with | some s => decide (p.status = s) | none => true) &&
  (match q.city with | some c => strContainsCI p.location.city c | none => true) &&
  (match q.district with | some d => strContainsCI p.location.district d | none => true) &&
  (match q.village with | some v => strContainsCI p.location.village v | none => true) &&
  (match q.bedrooms with | some b => decide (p.bedrooms = some b) | none => true) &&
  (match q.bathrooms with | some b => decide (p.bathrooms = some b) | none => true) &&
  (match q.minArea with
   | some v => match p.area with | some a => decide (v ≤ a) | none => false
   | none => true) &&
  (match q.maxArea with
   | some v => match p.area with | some a => decide (a ≤ v) | none => false
   | none => true)

/-- Sort comparison selected by the sort query parameter
(default: createdAt descending). -/
def propSortLe (s : Option String) (a b : PropertyDoc) : Bool :=
  match s with
  | some "price-asc" => decide (a.price ≤ b.price)
  | some "price-desc" => decide (b.price ≤ a.price)
  | some "oldest" => decide (a.createdAt ≤ b.createdAt)
  | some "area-asc" => decide (a.area.getD 0 ≤ b.area.getD 0)
  | some "area-desc" => decide (b.area.getD 0 ≤ a.area.getD 0)
  | _ => decide (b.createdAt ≤ a.createdAt)

/-- GET /api/properties: base visibility filter, then user filters, then
sort, then pagination (page default 1, limit default 10). -/
def getProperties (db : List PropertyDoc) (q : ListParams) : List PropertyDoc :=
  paginate
    (sortByBool (propSortLe q.sort)
      ((getPropertiesVisible db).filter (matchesUserFilters q)))
    (q.page.getD 1) (q.limit.getD 10)

/-- Claim C1: the anonymous public listing endpoint includes a property p
in its results, before user-supplied filters and pagination are applied,
if and only if p.isPublished = true or p.approvalStatus = approved. -/
theorem getProperties_visible_iff (db : List PropertyDoc) (p : PropertyDoc) :
    p ∈ getPropertiesVisible db ↔
      p ∈ db ∧ (p.isPublished = true ∨ p.approvalStatus = .approved) := by
  simp [getPropertiesVisible, publiclyVisible, List.mem_filter,
    Bool.or_eq_true, decide_eq_true_eq]

/-- Instance of the C1 theorem on a concrete database: an unpublished but
approved property is visible to anonymous callers. -/
theorem getProperties_visible_iff_witness :
    ({ id := 1, owner := 5, isPublished := false,
       approvalStatus := .approved } : PropertyDoc) ∈
      getPropertiesVisible
        [{ id := 1, owner := 5, isPublished := false,
           approvalStatus := .approved }] :=
  (getProperties_visible_iff _ _).mpr ⟨List.mem_singleton.mpr rfl, Or.inr rfl⟩

/-! ## Moderation workflow: approve / reject (admin controller) -/

/-- Replaces the document with the given id in a collection (a Mongo
document save after in-place mutation). -/
def saveProperty (db : List PropertyDoc) (p : PropertyDoc) : List PropertyDoc :=
  db.map (fun q => if q.id = p.id then p else q)

/-- PUT /api/admin/properties/:id/approve.  Looks the property up; 404 when
absent; 400 when already approved; otherwise sets approvalStatus approved,
approvedBy, approvedAt and isPublished true, and saves. -/
def approveProperty (db : List PropertyDoc) (pid adminId now : Nat) :
    Except ErrResp PropertyDoc × List PropertyDoc :=
  match db.find? (fun p => decide (p.id = pid)) with
  | none => (.error ⟨404, "Property not found"⟩, db)
  | some p =>
    if p.approvalStatus = .approved then
      (.error ⟨400, "Property is already approved"⟩, db)
    else
      let p' := { p with approvalStatus := .approved, approvedBy := some adminId,
                         approvedAt := some now, isPublished := true }
      (.ok p', saveProperty db p')

/-- PUT /api/admin/properties/:id/reject.  Requires a non-empty rejection
reason (checked before the lookup); 404 when absent; 400 when already
rejected; otherwise sets approvalStatus rejected, records approvedBy and
approvedAt, stores the reason and clears isPublished. -/
def rejectProperty (db : List PropertyDoc) (pid adminId now : Nat)
    (rejectionReason : Option String) :
    Except ErrResp PropertyDoc × List PropertyDoc :=
  if (match rejectionReason with
      | none => true
      | some s => decide ((jsTrim s).length = 0)) then
    (.error ⟨400, "Rejection reason is required"⟩, db)
  else
    match db.find? (fun p => decide (p.id = pid)) with
    | none => (.error ⟨404, "Property not found"⟩, db)
    | some p =>
      if p.approvalStatus = .rejected then
        (.error ⟨400, "Property is already rejected"⟩, db)
      else
        let p' := { p with approvalStatus := .rejected, approvedBy := some adminId,
                           approvedAt := some now,
                           rejectionReason := rejectionReason, isPublished := false }
        (.ok p', saveProperty db p')

/-- Claim C3: approving an already-approved property fails with a 400 error
and changes nothing; approving any other existing property sets
approvalStatus approved, approvedBy to the admin, approvedAt to now and
isPublished to true. -/
theorem approveProperty_spec (db : List PropertyDoc) (pid adminId now : Nat)
    (p : PropertyDoc) (hfind : db.find? (fun q => decide (q.id = pid)) = some p) :
    (p.approvalStatus = .approved →
      approveProperty db pid adminId now =
        (.error ⟨400, "Property is already approved"⟩, db)) ∧
    (p.approvalStatus ≠ .approved →
      ∃ p', approveProperty db pid adminId now = (.ok p', saveProperty db p') ∧
        p'.approvalStatus = .approved ∧ p'.approvedBy = some adminId ∧
        p'.approvedAt = some now ∧ p'.isPublished = true) := by
  constructor
  · intro h
    simp [approveProperty, hfind, h]
  · intro h
    have hres : approveProperty db pid adminId now =
        (.ok
          { p with approvalStatus := .approved, approvedBy := some adminId,
                   approvedAt := some now, isPublished := true },
         saveProperty db
          { p with approvalStatus := .approved, approvedBy := some adminId,
                   approvedAt := some now, isPublished := true }) := by
      simp [approveProperty, hfind, h]
    exact ⟨_, hres, rfl, rfl, rfl, rfl⟩

/-- A concrete approved, published property used in the moderation
witnesses. -/
def propApproved : PropertyDoc :=
  { id := 1, owner := 5, isPublished := true, approvalStatus := .approved }

/-- Instance of the C3 theorem: approving an already-approved property on a
concrete database returns the 400 error and leaves the database unchanged. -/
theorem approveProperty_spec_witness :
    approveProperty [propApproved] 1 9 100 =
      (.error ⟨400, "Property is already approved"⟩, [propApproved]) :=
  (approveProperty_spec [propApproved] 1 9 100 propApproved (by decide)).1 rfl

/-- Claim C4: rejecting with an empty or whitespace-only reason fails with a
400 error; rejecting an already-rejected property fails with a 400 error;
otherwise (even for a previously approved and published property) the
property becomes rejected and unpublished, with the admin, the time and the
reason recorded. -/
theorem rejectProperty_spec (db : List PropertyDoc) (pid adminId now : Nat)
    (s : String) (p : PropertyDoc)
    (hfind : db.find? (fun q => decide (q.id = pid)) = some p) :
    ((jsTrim s).length = 0 →
      rejectProperty db pid adminId now (some s) =
        (.error ⟨400, "Rejection reason is required"⟩, db)) ∧
    ((jsTrim s).length ≠ 0 → p.approvalStatus = .rejected →
      rejectProperty db pid adminId now (some s) =
        (.error ⟨400, "Property is already rejected"⟩, db)) ∧
    ((jsTrim s).length ≠ 0 → p.approvalStatus ≠ .rejected →
      ∃ p', rejectProperty db pid adminId now (some s) =
          (.ok p', saveProperty db p') ∧
        p'.approvalStatus = .rejected ∧ p'.approvedBy = some adminId ∧
        p'.approvedAt = some now ∧ p'.rejectionReason = some s ∧
        p'.isPublished = false) := by
  refine ⟨fun h => ?_, fun h h' => ?_, fun h h' => ?_⟩
  · simp [rejectProperty, h]
  · simp [rejectProperty, h, hfind, h']
  · have hres : rejectProperty db pid adminId now (some s) =
        (.ok
          { p with approvalStatus := .rejected, approvedBy := some adminId,
                   approvedAt := some now, rejectionReason := some s,
                   isPublished := false },
         saveProperty db
          { p with approvalStatus := .rejected, approvedBy := some adminId,
                   approvedAt := some now, rejectionReason := some s,
                   isPublished := false }) := by
      simp [rejectProperty, h, hfind, h']
    exact ⟨_, hres, rfl, rfl, rfl, rfl, rfl⟩

/-- Instance of the C4 theorem: rejecting a previously approved, published
property with a non-empty reason succeeds and clears isPublished. -/
theorem rejectProperty_spec_witness :
    ∃ p', rejectProperty [propApproved] 1 9 100 (some "too cheap") =
        (.ok p', saveProperty [propApproved] p') ∧
      p'.approvalStatus = .rejected ∧ p'.approvedBy = some 9 ∧
      p'.approvedAt = some 100 ∧ p'.rejectionReason = some "too cheap" ∧
      p'.isPublished = false :=
  (rejectProperty_spec [propApproved] 1 9 100 "too cheap" propApproved
    (by decide)).2.2 (by decide) (by decide)

/-! ## Property creation: POST /api/properties (createProperty) -/

/-- Client payload of createProperty, after upload handling: the fields the
handler copies into propertyData, including client attempts at the
moderation fields. -/
structure CreatePayload where
  title : String := ""
  description : String := ""
  price : ℚ := 0
  type : String := ""
  status : String := ""
  location : Location := {}
  bedrooms : Option Nat := none
  bathrooms : Option Nat := none
  area : Option ℚ := none
  isFeatured : Option Bool := none
  isPublished : Option Bool := none
  isActive : Option Bool := none
  approvalStatus : Option ApprovalStatus := none

/-- POST /api/properties.  The handler spreads the client body into
propertyData (so client-supplied approvalStatus and isPublished land
there), links the owner and, for agents, their agent profile, and then
unconditionally overwrites isPublished to false, isActive to true and
approvalStatus to pending before saving. -/
def createProperty (payload : CreatePayload) (userId : Nat) (roleIsAgent : Bool)
    (agentProfile : Option Nat) (newId now : Nat) : PropertyDoc :=
  let spread : PropertyDoc :=
    { id := newId, title := payload.title, description := payload.description,
      price := payload.price, type := payload.type, status := payload.status,
      location := payload.location, bedrooms := payload.bedrooms,
      bathrooms := payload.bathrooms, area := payload.area,
      owner := userId,
      agent := if roleIsAgent then agentProfile else none,
      isFeatured := payload.isFeatured.getD false,
      isPublished := payload.isPublished.getD true,
      isActive := payload.isActive.getD true,
      approvalStatus := payload.approvalStatus.getD .pending,
      createdAt := now }
  { spread with isPublished := false, isActive := true, approvalStatus := .pending }

/-- Claim C5: for every authenticated user and every payload, including one
that explicitly sets approvalStatus or isPublished, the stored property has
approvalStatus pending and isPublished false (and is owned by the caller). -/
theorem createProperty_forces_pending (payload : CreatePayload) (userId : Nat)
    (roleIsAgent : Bool) (agentProfile : Option Nat) (newId now : Nat) :
    (createProperty payload userId roleIsAgent agentProfile newId now).approvalStatus
        = .pending ∧
    (createProperty payload userId roleIsAgent agentProfile newId now).isPublished
        = false ∧
    (createProperty payload userId roleIsAgent agentProfile newId now).owner
        = userId := by
  refine ⟨rfl, rfl, rfl⟩

/-! ## Data model: Agent (with embedded reviews and derived ratings) -/

/-- User roles. -/
inductive Role
  | user
  | agent
  | admin
deriving DecidableEq, Repr

/-- An embedded review sub-document of an agent. -/
structure Review where
  id : Nat
  user : Nat
  rating : ℚ
  comment : Option String := none
  createdAt : Nat := 0
deriving DecidableEq, Repr

/-- The aggregate ratings sub-document of an agent. -/
structure Ratings where
  average : ℚ := 0
  count : Nat := 0
deriving DecidableEq, Repr

/-- An Agent document (the fields the handlers under verification read or
write). -/
structure AgentDoc where
  id : Nat
  user : Nat
  bio : String := ""
  experience : Nat := 0
  ratings : Ratings := {}
  reviews : List Review := []
  isVerified : Bool := false
  isActive : Bool := true
deriving DecidableEq, Repr

/-- The calculateAverageRating method of the Agent schema: average is the
arithmetic mean of the review ratings (0 when there are none) and count is
the number of reviews. -/
def calculateAverageRating (a : AgentDoc) : AgentDoc :=
  if a.reviews.length = 0 then
    { a with ratings := { average := 0, count := 0 } }
  else
    { a with ratings :=
      { average := (a.reviews.map (fun r => r.rating)).sum / a.reviews.length,
        count := a.reviews.length } }

/-- Document save of an agent: the pre-save middleware of the Agent schema
runs calculateAverageRating before every save. -/
def saveAgent (a : AgentDoc) : AgentDoc :=
  calculateAverageRating a

/-- The derived-aggregate invariant the spec states for agents. -/
def ratingsDerived (a : AgentDoc) : Prop :=
  a.ratings.count = a.reviews.length ∧
  a.ratings.average =
    (if a.reviews.length = 0 then 0
     else (a.reviews.map (fun r => r.rating)).sum / a.reviews.length)

instance (a : AgentDoc) : Decidable (ratingsDerived a) := by
  unfold ratingsDerived; infer_instance

/-! ## Agent reviews: POST / PUT / DELETE /api/agents/:id/reviews -/

/-- POST /api/agents/:id/reviews.  404 when the agent is absent; 400 when
the acting user already has a review on this agent; otherwise pushes the
review and saves (the save recomputes the aggregate ratings). -/
def addAgentReview (a? : Option AgentDoc) (userId : Nat) (rating : ℚ)
    (comment : Option String) (newReviewId now : Nat) :
    Except ErrResp AgentDoc :=
  match a? with
  | none => .error ⟨404, "Agent not found"⟩
  | some a =>
    if (a.reviews.find? (fun r => decide (r.user = userId))).isSome then
      .error ⟨400, "You have already reviewed this agent"⟩
    else
      .ok (saveAgent
        { a with reviews := a.reviews ++
            [{ id := newReviewId, user := userId, rating := rating,
               comment := comment, createdAt := now }] })

/-- PUT /api/agents/:id/reviews/:reviewId.  404 when agent or review is
absent; 403 unless the actor authored the review; otherwise overwrites
rating and comment when the request supplies truthy values (JavaScript
truthiness: 0 and the empty string do not update) and saves. -/
def updateAgentReview (a? : Option AgentDoc) (reviewId actorId : Nat)
    (rating : Option ℚ) (comment : Option String) :
    Except ErrResp AgentDoc :=
  match a? with
  | none => .error ⟨404, "Agent not found"⟩
  | some a =>
    match a.reviews.find? (fun r => decide (r.id = reviewId)) with
    | none => .error ⟨404, "Review not found"⟩
    | some rv =>
      if rv.user ≠ actorId then
        .error ⟨403, "Not authorized to update this review"⟩
      else
        let upd := fun (r : Review) =>
          if r.id = reviewId then
            { r with
              rating := match rating with
                | some x => if x = 0 then r.rating else x
                | none => r.rating,
              comment := match comment with
                | some "" => r.comment
                | some c => some c
                | none => r.comment }
          else r
        .ok (saveAgent { a with reviews := a.reviews.map upd })

/-- DELETE /api/agents/:id/reviews/:reviewId.  404 when agent or review is
absent; 403 unless the actor is the author or an admin; otherwise removes
the sub-document and saves. -/
def deleteAgentReview (a? : Option AgentDoc) (reviewId actorId : Nat)
    (actorRole : Role) : Except ErrResp AgentDoc :=
  match a? with
  | none => .error ⟨404, "Agent not found"⟩
  | some a =>
    match a.reviews.find? (fun r => decide (r.id = reviewId)) with
    | none => .error ⟨404, "Review not found"⟩
    | some rv =>
      if rv.user ≠ actorId ∧ actorRole ≠ .admin then
        .error ⟨403, "Not authorized to delete this review"⟩
      else
        .ok (saveAgent
          { a with reviews := a.reviews.eraseP (fun r => decide (r.id = reviewId)) })

/-! ## Agent profile update: PUT /api/agents/:id (updateAgent) -/

/-- A request body for updateAgent.  findByIdAndUpdate applies whatever
fields the client sends, so the derived ratings sub-document itself is
settable here. -/
structure AgentUpdate where
  bio : Option String := none
  experience : Option Nat := none
  ratings : Option Ratings := none
  reviews : Option (List Review) := none
  isVerified : Option Bool := none
  isActive : Option Bool := none

/-- Field application of findByIdAndUpdate: present fields overwrite, the
save middleware does not run, so no rating recomputation happens. -/
def applyAgentUpdate (a : AgentDoc) (u : AgentUpdate) : AgentDoc :=
  { a with
    bio := u.bio.getD a.bio,
    experience := u.experience.getD a.experience,
    ratings := u.ratings.getD a.ratings,
    reviews := u.reviews.getD a.reviews,
    isVerified := u.isVerified.getD a.isVerified,
    isActive := u.isActive.getD a.isActive }

/-- PUT /api/agents/:id.  404 when absent; 403 unless owner or admin;
otherwise persists the update through findByIdAndUpdate (bypassing the
pre-save rating recomputation).  The returned Bool records whether the
handler also promoted the linked user to the agent role (isVerified flipped
from false to true). -/
def updateAgent (a? : Option AgentDoc) (actorId : Nat) (actorRole : Role)
    (u : AgentUpdate) : Except ErrResp (AgentDoc × Bool) :=
  match a? with
  | none => .error ⟨404, "Agent not found"⟩
  | some a =>
    if a.user ≠ actorId ∧ actorRole ≠ .admin then
      .error ⟨403, "Not authorized to update this agent profile"⟩
    else
      let wasVerified := a.isVerified
      let a' := applyAgentUpdate a u
      .ok (a', !wasVerified && a'.isVerified)

/-- A concrete agent whose single review has rating 4, with correctly
derived aggregates. -/
def agentOneReview : AgentDoc :=
  { id := 10, user := 2,
    ratings := { average := 4, count := 1 },
    reviews := [{ id := 1, user := 7, rating := 4 }] }

/-- Counterexample to claim C2: updateAgent persists a client-supplied
ratings sub-document without recomputation, so after this persisted
mutation the stored average 1 differs from the mean (4) of the stored
reviews. -/
theorem updateAgent_ratings_drift_cex :
    updateAgent (some agentOneReview) 2 .user
        { ratings := some { average := 1, count := 10 } } =
      .ok ({ agentOneReview with ratings := { average := 1, count := 10 } },
           false) ∧
    ¬ ratingsDerived
      { agentOneReview with ratings := { average := 1, count := 10 } } := by
  constructor
  · rfl
  · decide

/-- Claim C2 as amended: the derived-ratings invariant holds after every
save-based persisted mutation of an agent — every document save (hence
agent creation) and every successful review add, update or delete — while
updateAgent persists through findByIdAndUpdate, which skips the
recomputation (see the counterexample). -/
theorem ratings_recomputed_on_save (a : AgentDoc) :
    ratingsDerived (saveAgent a) ∧
    (∀ a? userId rating comment newReviewId now a',
      addAgentReview a? userId rating comment newReviewId now = .ok a' →
        ratingsDerived a') ∧
    (∀ a? reviewId actorId rating comment a',
      updateAgentReview a? reviewId actorId rating comment = .ok a' →
        ratingsDerived a') ∧
    (∀ a? reviewId actorId actorRole a',
      deleteAgentReview a? reviewId actorId actorRole = .ok a' →
        ratingsDerived a') := by
  have key : ∀ b : AgentDoc, ratingsDerived (saveAgent b) := by
    intro b
    by_cases h : b.reviews.length = 0 <;>
      simp [saveAgent, calculateAverageRating, ratingsDerived, h]
  refine ⟨key a, ?_, ?_, ?_⟩
  · intro a? userId rating comment newReviewId now a' h
    match a? with
    | none => simp [addAgentReview] at h
    | some b =>
      simp only [addAgentReview] at h
      split at h
      · exact absurd h (by simp)
      · rw [Except.ok.injEq] at h
        exact h ▸ key _
  · intro a? reviewId actorId rating comment a' h
    match a? with
    | none => simp [updateAgentReview] at h
    | some b =>
      simp only [updateAgentReview] at h
      split at h
      · exact absurd h (by simp)
      · split at h
        · exact absurd h (by simp)
        · rw [Except.ok.injEq] at h
          exact h ▸ key _
  · intro a? reviewId actorId actorRole a' h
    match a? with
    | none => simp [deleteAgentReview] at h
    | some b =>
      simp only [deleteAgentReview] at h
      split at h
      · exact absurd h (by simp)
      · split at h
        · exact absurd h (by simp)
        · rw [Except.ok.injEq] at h
          exact h ▸ key _

/-- Instance of the amended C2 theorem: adding a first review of rating 5
to a fresh agent yields derived aggregates (average 5, count 1). -/
theorem ratings_recomputed_on_save_witness :
    ratingsDerived
      (saveAgent
        { id := 11, user := 3,
          reviews := [{ id := 1, user := 7, rating := 5 }] }) :=
  (ratings_recomputed_on_save
      { id := 11, user := 3, reviews := [] }).2.1
    (some { id := 11, user := 3 }) 7 5 none 1 0 _ rfl

/-- Claim C6: after a successful first addReview by a user, a second
addReview by the same user on the resulting agent fails with a 400 error,
and the review collection grows by exactly 1 across the two calls. -/
theorem addAgentReview_duplicate_rejected (a : AgentDoc) (u : Nat)
    (r r' : ℚ) (c c' : Option String) (rid rid' now now' : Nat)
    (h : a.reviews.find? (fun rv => decide (rv.user = u)) = none) :
    ∃ a₁, addAgentReview (some a) u r c rid now = .ok a₁ ∧
      addAgentReview (some a₁) u r' c' rid' now' =
        .error ⟨400, "You have already reviewed this agent"⟩ ∧
      a₁.reviews.length = a.reviews.length + 1 := by
  refine ⟨saveAgent
    { a with reviews := a.reviews ++
        [{ id := rid, user := u, rating := r, comment := c, createdAt := now }] },
    ?_, ?_, ?_⟩
  · simp [addAgentReview, h]
  · have hfound :
        ((saveAgent
          { a with reviews := a.reviews ++
              [{ id := rid, user := u, rating := r, comment := c,
                 createdAt := now }] }).reviews.find?
          (fun rv => decide (rv.user = u))).isSome = true := by
      simp only [saveAgent, calculateAverageRating]
      split <;> simp [List.find?_append, h]
    simp [addAgentReview, hfound]
  · simp only [saveAgent, calculateAverageRating]
    split <;> simp

/-- Instance of the C6 theorem on a concrete agent with no prior reviews:
the duplicate second call fails and only one review is stored. -/
theorem addAgentReview_duplicate_rejected_witness :
    ∃ a₁, addAgentReview (some { id := 12, user := 3 }) 7 4 none 1 50 = .ok a₁ ∧
      addAgentReview (some a₁) 7 5 (some "again") 2 60 =
        .error ⟨400, "You have already reviewed this agent"⟩ ∧
      a₁.reviews.length = 0 + 1 :=
  addAgentReview_duplicate_rejected
    { id := 12, user := 3 } 7 4 5 none (some "again") 1 2 50 60 rfl

/-! ## Data model: User, and registration (auth controller) -/

/-- A User document. -/
structure UserDoc where
  id : Nat
  name : String := ""
  email : Option String := none
  phone : Option String := none
  password : String := ""
  role : Role := .user
  isActive : Bool := true
deriving DecidableEq, Repr

/-- JavaScript truthiness on an optional string: the empty string is falsy
and behaves like an absent field. -/
def truthyStr : Option String → Option String
  | some "" => none
  | x => x

theorem truthyStr_none : truthyStr none = none := rfl

/-- Splits a character list on a separator character (list-level analogue
of String.split, written so that it evaluates by kernel reduction). -/
def splitOnChar (c : Char) : List Char → List (List Char)
  | [] => [[]]
  | x :: xs =>
    if x = c then [] :: splitOnChar c xs
    else
      match splitOnChar c xs with
      | [] => [[x]]
      | h :: t => (x :: h) :: t

/-- The email regular expression of the register handler: at least one
character that is neither whitespace nor an at sign, one at sign, then a
domain part that contains a dot with such characters on both sides. -/
def emailValid (s : String) : Bool :=
  match splitOnChar '@' s.toList with
  | [a, r] =>
    decide (a.length ≠ 0) &&
    a.all (fun c => !c.isWhitespace) &&
    r.all (fun c => !c.isWhitespace) &&
    (List.range r.length).any (fun i =>
      decide (r.getD i ' ' = '.') && decide (1 ≤ i) &&
        decide (i + 2 ≤ r.length))
  | _ => false

/-- The mobile regular expression of the register handler: exactly ten
digits. -/
def mobileValid (s : String) : Bool :=
  decide (s.toList.length = 10) && s.toList.all Char.isDigit

/-- POST /api/auth/register.  Validates the supplied email and mobile, then
looks for an existing account: when an email is supplied only the email is
checked, and the mobile is checked only when no email is supplied.  On
success creates the user (role defaults to user); the returned Bool records
whether an agent profile was also created (role agent). -/
def register (db : List UserDoc) (name : String) (email0 mobile0 : Option String)
    (password : String) (role : Option Role) (newId : Nat) :
    Except ErrResp (UserDoc × Bool) :=
  let email := truthyStr email0
  let mobile := truthyStr mobile0
  if (match email with | some e => !emailValid e | none => false) then
    .error ⟨400, "Please provide a valid email"⟩
  else if (match mobile with | some m => !mobileValid m | none => false) then
    .error ⟨400, "Please provide a valid 10-digit mobile number"⟩
  else
    let existingUser : Option UserDoc :=
      match email with
      | some e => db.find? (fun u => decide (u.email = some e))
      | none =>
        match mobile with
        | some m => db.find? (fun u => decide (u.phone = some m))
        | none => none
    if existingUser.isSome then
      .error ⟨400, "User already exists with this email or mobile number"⟩
    else
      .ok ({ id := newId, name := name, email := email, phone := mobile,
             password := password, role := role.getD .user },
           decide (role = some .agent))

/-- A one-user database for the C7 counterexample: the account holds both
an email and a mobile number. -/
def regDb : List UserDoc :=
  [{ id := 1, name := "A", email := some "a@b.com",
     phone := some "1234567890", password := "x" }]

/-- Counterexample to claim C7: registration supplying both a fresh email
and a mobile number that matches the existing account succeeds instead of
failing with the duplicate-account error. -/
theorem register_mobile_duplicate_cex :
    (∃ u ∈ regDb, u.phone = some "1234567890") ∧
    (register regDb "B" (some "c@d.com") (some "1234567890") "pw" none 2).isOk
      = true := by
  constructor
  · exact ⟨_, List.mem_singleton.mpr rfl, rfl⟩
  · decide

/-- Claim C7 as amended: registration fails with the duplicate-account 400
error when the supplied (truthy) email matches an existing account, and,
when no email is supplied, when the supplied mobile matches an existing
account — the mobile is never checked while an email is present. -/
theorem register_duplicate_check (db : List UserDoc) (name pw : String)
    (e : String) (m0 : Option String) (role : Option Role) (newId : Nat)
    (u v : UserDoc) (s : String) :
    (e ≠ "" → emailValid e = true →
      (match truthyStr m0 with | some m => mobileValid m | none => true) = true →
      db.find? (fun w => decide (w.email = some e)) = some u →
      register db name (some e) m0 pw role newId =
        .error ⟨400, "User already exists with this email or mobile number"⟩) ∧
    (s ≠ "" → mobileValid s = true →
      db.find? (fun w => decide (w.phone = some s)) = some v →
      register db name none (some s) pw role newId =
        .error ⟨400, "User already exists with this email or mobile number"⟩) := by
  constructor
  · intro he hev hm hdup
    have htr : truthyStr (some e) = some e := by
      cases e with
      | mk l =>
        cases l with
        | nil => exact absurd rfl he
        | cons c cs => rfl
    match hm0 : truthyStr m0 with
    | none => simp [register, htr, hm0, hev, hdup]
    | some m =>
      rw [hm0] at hm
      have hm' : mobileValid m = true := hm
      simp [register, htr, hm0, hev, hm', hdup]
  · intro hs hmv hdup
    have htr : truthyStr (some s) = some s := by
      cases s with
      | mk l =>
        cases l with
        | nil => exact absurd rfl hs
        | cons c cs => rfl
    simp [register, htr, truthyStr_none, hmv, hdup]

/-- Instance of the amended C7 theorem: registering with the email already
on file is rejected with the duplicate-account error. -/
theorem register_duplicate_check_witness :
    register regDb "B" (some "a@b.com") none "pw" none 2 =
      .error ⟨400, "User already exists with this email or mobile number"⟩ :=
  (register_duplicate_check regDb "B" "pw" "a@b.com" none none 2
      (regDb.get ⟨0, by decide⟩) (regDb.get ⟨0, by decide⟩) "x").1
    (by decide) (by decide) (by decide) (by decide)

/-! ## Admin user management: the two DELETE user paths and role update -/

namespace AdminController

/-- DELETE /api/admin/users/:id (admin controller).  404 when the target is
absent; 400 when an admin targets their own account; otherwise removes the
user document.  This handler never touches the Agent collection. -/
def deleteUser (users : List UserDoc) (agents : List AgentDoc)
    (targetId actorId : Nat) :
    Except ErrResp Unit × List UserDoc × List AgentDoc :=
  match users.find? (fun u => decide (u.id = targetId)) with
  | none => (.error ⟨404, "User not found"⟩, users, agents)
  | some u =>
    if u.id = actorId then
      (.error ⟨400, "You cannot delete your own account"⟩, users, agents)
    else
      (.ok (), users.eraseP (fun v => decide (v.id = targetId)), agents)

end AdminController

namespace UsersController

/-- DELETE /api/users/:id (users controller).  400 when an admin targets
their own account; 404 when the target is absent; otherwise deletes the
linked agent profile (findOneAndDelete on user id) and then the user. -/
def deleteUser (users : List UserDoc) (agents : List AgentDoc)
    (targetId actorId : Nat) :
    Except ErrResp Unit × List UserDoc × List AgentDoc :=
  if targetId = actorId then
    (.error ⟨400, "Cannot delete your own account"⟩, users, agents)
  else
    match users.find? (fun u => decide (u.id = targetId)) with
    | none => (.error ⟨404, "User not found"⟩, users, agents)
    | some _ =>
      (.ok (),
       users.eraseP (fun v => decide (v.id = targetId)),
       agents.eraseP (fun a => decide (a.user = targetId)))

/-- PUT /api/users/:id/role.  400 when an admin targets their own account;
404 when the target is absent; otherwise sets the role and, when the new
role is agent and no agent record exists for the target, creates one
(unverified, active). -/
def updateUserRole (users : List UserDoc) (agents : List AgentDoc)
    (targetId actorId : Nat) (role : Role) (newAgentId : Nat) :
    Except ErrResp UserDoc × List UserDoc × List AgentDoc :=
  if targetId = actorId then
    (.error ⟨400, "Cannot change your own role"⟩, users, agents)
  else
    match users.find? (fun u => decide (u.id = targetId)) with
    | none => (.error ⟨404, "User not found"⟩, users, agents)
    | some u =>
      let u' := { u with role := role }
      let users' := users.map (fun v => if v.id = targetId then u' else v)
      let agents' :=
        if role = .agent ∧ agents.find? (fun a => decide (a.user = targetId)) = none
        then agents ++ [saveAgent { id := newAgentId, user := targetId }]
        else agents
      (.ok u', users', agents')

end UsersController

/-- Users of the C9 counterexample: an acting admin and a target user. -/
def cascadeUsers : List UserDoc :=
  [{ id := 1, name := "Admin", role := .admin },
   { id := 2, name := "Agent person", role := .agent }]

/-- Agents of the C9 counterexample: one profile linked to user 2. -/
def cascadeAgents : List AgentDoc :=
  [{ id := 30, user := 2 }]

/-- Counterexample to claim C9: the admin-controller deletion path removes
user 2 but leaves the Agent profile linked to user 2 in place, so the
cascade does not hold on every admin user-deletion path. -/
theorem adminDeleteUser_no_cascade_cex :
    AdminController.deleteUser cascadeUsers cascadeAgents 2 1 =
      (.ok (), [{ id := 1, name := "Admin", role := .admin }], cascadeAgents) ∧
    (cascadeAgents.filter (fun a => decide (a.user = 2))).length = 1 := by
  constructor
  · rfl
  · decide

/-- Removing the unique match with eraseP leaves no match. -/
theorem filter_eraseP_of_le_one (p : α → Bool) (l : List α)
    (h : (l.filter p).length ≤ 1) : (l.eraseP p).filter p = [] := by
  induction l with
  | nil => rfl
  | cons x xs ih =>
    by_cases hx : p x = true
    · rw [List.eraseP_cons_of_pos hx]
      have h0 : (xs.filter p).length = 0 := by
        rw [List.filter_cons_of_pos hx] at h
        simp only [List.length_cons] at h
        omega
      exact List.length_eq_zero.mp h0
    · rw [List.eraseP_cons_of_neg (by simpa using hx), List.filter_cons_of_neg hx]
      rw [List.filter_cons_of_neg hx] at h
      exact ih h

/-- Claim C9 as amended: the cascade holds on the users-controller deletion
path (DELETE /api/users/:id): when an admin deletes another existing user,
the call succeeds and no agent record linked to that user remains (the
application keeps at most one agent record per user); the admin-controller
path (DELETE /api/admin/users/:id) leaves the Agent collection untouched
(see the counterexample). -/
theorem usersDeleteUser_cascades (users : List UserDoc)
    (agents : List AgentDoc) (targetId actorId : Nat) (u : UserDoc)
    (hne : targetId ≠ actorId)
    (hu : users.find? (fun v => decide (v.id = targetId)) = some u)
    (hone : (agents.filter (fun a => decide (a.user = targetId))).length ≤ 1) :
    (UsersController.deleteUser users agents targetId actorId).1 = .ok () ∧
    ((UsersController.deleteUser users agents targetId actorId).2.2.filter
        (fun a => decide (a.user = targetId))) = [] := by
  constructor
  · simp [UsersController.deleteUser, hne, hu]
  · have : (UsersController.deleteUser users agents targetId actorId).2.2 =
        agents.eraseP (fun a => decide (a.user = targetId)) := by
      simp [UsersController.deleteUser, hne, hu]
    rw [this]
    exact filter_eraseP_of_le_one _ _ hone

/-- Instance of the amended C9 theorem: on the concrete database the
users-controller deletion removes the linked agent profile. -/
theorem usersDeleteUser_cascades_witness :
    (UsersController.deleteUser cascadeUsers cascadeAgents 2 1).1 = .ok () ∧
    ((UsersController.deleteUser cascadeUsers cascadeAgents 2 1).2.2.filter
        (fun a => decide (a.user = 2))) = [] :=
  usersDeleteUser_cascades cascadeUsers cascadeAgents 2 1
    { id := 2, name := "Agent person", role := .agent }
    (by decide) (by decide) (by decide)

/-- Claim C10: an admin acting on their own account is refused with a 400
error by both user-deletion handlers and by the role-update handler, and
none of the collections change. -/
theorem self_action_guards (users : List UserDoc) (agents : List AgentDoc)
    (actorId : Nat) (role : Role) (newAgentId : Nat) (u : UserDoc)
    (hu : users.find? (fun v => decide (v.id = actorId)) = some u) :
    AdminController.deleteUser users agents actorId actorId =
      (.error ⟨400, "You cannot delete your own account"⟩, users, agents) ∧
    UsersController.deleteUser users agents actorId actorId =
      (.error ⟨400, "Cannot delete your own account"⟩, users, agents) ∧
    UsersController.updateUserRole users agents actorId actorId role newAgentId =
      (.error ⟨400, "Cannot change your own role"⟩, users, agents) := by
  have hid : u.id = actorId := by
    have := List.find?_some hu
    exact of_decide_eq_true this
  refine ⟨?_, ?_, ?_⟩
  · simp [AdminController.deleteUser, hu, hid]
  · simp [UsersController.deleteUser]
  · simp [UsersController.updateUserRole]

/-- Instance of the C10 theorem: the admin (id 1) of the concrete database
cannot delete or re-role themselves through any of the three handlers. -/
theorem self_action_guards_witness :
    AdminController.deleteUser cascadeUsers cascadeAgents 1 1 =
      (.error ⟨400, "You cannot delete your own account"⟩,
        cascadeUsers, cascadeAgents) ∧
    UsersController.deleteUser cascadeUsers cascadeAgents 1 1 =
      (.error ⟨400, "Cannot delete your own account"⟩,
        cascadeUsers, cascadeAgents) ∧
    UsersController.updateUserRole cascadeUsers cascadeAgents 1 1 .user 99 =
      (.error ⟨400, "Cannot change your own role"⟩,
        cascadeUsers, cascadeAgents) :=
  self_action_guards cascadeUsers cascadeAgents 1 .user 99
    { id := 1, name := "Admin", role := .admin } (by decide)

/-! ## Property search: GET /api/properties/search (searchProperties) -/

/-- Whitespace tokenization of a text query (the text-search engine matches
per word). -/
def textTokens (q : String) : List String :=
  (q.toList.map (fun c => if c.isWhitespace then ' ' else c)
    |> (fun l => splitOnChar ' ' l)
    |>.map String.mk).filter (fun t => t ≠ "")

/-- The fields covered by the text index of the Property schema: title,
description and the location strings. -/
def indexedFields (p : PropertyDoc) : List String :=
  [p.title, p.description, p.location.address, p.location.city,
   p.location.village, p.location.taluka, p.location.district]

/-- Relevance score of the text-search engine: how many query tokens occur
in the indexed fields of the property (0 for the empty query, which has no
tokens). -/
def textScore (q : String) (p : PropertyDoc) : Nat :=
  ((textTokens q).filter
    (fun t => (indexedFields p).any (fun f => strContainsCI f t))).length

/-- GET /api/properties/search response data. -/
structure SearchResponse where
  status : Nat
  properties : List PropertyDoc
  total : Nat
deriving Repr

/-- The searchProperties controller: text-matches the query against
published properties only, sorts by descending relevance score, paginates,
and answers 200.  It has no 400 path. -/
def searchProperties (db : List PropertyDoc) (q : String) (page limit : Nat) :
    SearchResponse :=
  let matched := db.filter
    (fun p => decide (0 < textScore q p) && p.isPublished)
  { status := 200,
    properties :=
      paginate (sortByBool (fun a b => decide (textScore q b ≤ textScore q a))
        matched) page limit,
    total := matched.length }

/-- The validation chain declared on the search route: notEmpty on q flags
a missing or empty query.  express-validator chains only record errors on
the request and call next; no handler on this route ever reads the
recorded result. -/
def searchQueryValidationErrors (q : Option String) : List String :=
  if q.getD "" = "" then ["Search query is required"] else []

/-- The full route GET /api/properties/search: the validation chain runs
(recording errors) and the controller then handles the request without
consulting the recorded errors. -/
def searchRoute (db : List PropertyDoc) (q : Option String) (page limit : Nat) :
    SearchResponse :=
  searchProperties db (q.getD "") page limit

/-- Claim C8, evaluated against the code: for an empty query the declared
validation records the required-query error, yet the route answers 200 with
an empty result list rather than any 400 response; for every query the
results contain only published properties (ranked by descending text
score). -/
theorem searchRoute_empty_query_not_400 (db : List PropertyDoc)
    (page limit : Nat) :
    searchQueryValidationErrors (some "") ≠ [] ∧
    (searchRoute db (some "") page limit).status = 200 ∧
    (searchRoute db (some "") page limit).properties = [] ∧
    (∀ q p, p ∈ (searchRoute db q page limit).properties →
      p.isPublished = true) := by
  refine ⟨by simp [searchQueryValidationErrors], rfl, ?_, ?_⟩
  · have hscore : ∀ p : PropertyDoc, textScore "" p = 0 := by
      intro p
      simp [textScore, textTokens, splitOnChar]
    simp [searchRoute, searchProperties, hscore, sortByBool, paginate]
  · intro q p hp
    have h1 := mem_paginate _ _ _ _ hp
    have h2 := (mem_sortByBool _ _ _).mp h1
    have h3 := List.mem_filter.mp h2
    have := h3.2
    simp only [Bool.and_eq_true] at this
    exact this.2

/-- Instance of the C8 theorem: on a concrete database with one published
and one unpublished matching property, a returned search hit is published. -/
theorem searchRoute_empty_query_not_400_witness :
    (({ id := 1, owner := 5, title := "Lake view house",
        isPublished := true } : PropertyDoc)).isPublished = true :=
  (searchRoute_empty_query_not_400
      [{ id := 1, owner := 5, title := "Lake view house", isPublished := true },
       { id := 2, owner := 5, title := "Lake view house", isPublished := false }]
      1 10).2.2.2 (some "house")
    { id := 1, owner := 5, title := "Lake view house", isPublished := true }
    (by decide)

end Locatex
